import Mathlib

/-!
Verification of the attribute-cache glue code in
`hslua-packaging/cbits/hslpackaging.c`.

The C file defines four functions over a Lua interpreter state:
`hslua_wrappedudindex`, `hsluaP_get_caching_table`, `hslua_cachedindex`
and `hslua_cachedsetindex`.  Each communicates exclusively through the
interpreter value stack and the table heap, so we embed the relevant
fragment of the Lua 5.3 C API (stack manipulation, raw table access,
uservalues, metafields, calls und errors) as explicit state passing,
and transcribe the four C functions line by line against that API.

External behaviour that the C code merely calls into — the host getter
functions reached through `lua_call`, and the `lua_gettable` resolution
of a wrapped userdata — is modelled by an environment parameter
(`fenv`) respectively a per-userdata field map (`udfields`); every such
external step is recorded in an event trace so that "invokes the getter
exactly once" style properties are expressible.
-/

set_option maxHeartbeats 1000000

/-- Lua values, as far as this component distinguishes them.  Heap
objects (tables, userdata, functions) are referenced by number. -/
inductive V where
  | nil : V
  | boolean : Bool → V
  | num : Int → V
  | str : String → V
  | table : Nat → V
  | userdata : Nat → V
  | function : Nat → V
deriving DecidableEq, Repr

/-- Lua type tags as returned by `lua_type` and friends; `tNONE` is the
pseudo-type of an invalid (absent) stack index. -/
inductive LType where
  | tNONE : LType
  | tNIL : LType
  | tBOOLEAN : LType
  | tNUMBER : LType
  | tSTRING : LType
  | tTABLE : LType
  | tUSERDATA : LType
  | tFUNCTION : LType
deriving DecidableEq, Repr

/-- Type tag of a value. -/
def V.ltype : V → LType
  | V.nil => LType.tNIL
  | V.boolean _ => LType.tBOOLEAN
  | V.num _ => LType.tNUMBER
  | V.str _ => LType.tSTRING
  | V.table _ => LType.tTABLE
  | V.userdata _ => LType.tUSERDATA
  | V.function _ => LType.tFUNCTION

/-- Type tag of an optional stack slot (`none` is an absent index). -/
def ltypeOf : Option V → LType
  | none => LType.tNONE
  | some v => v.ltype

/-- Observable external events: a call of a host function with its
argument, or an indexing query on a wrapped userdata. -/
inductive Event where
  | call : Nat → V → Event
  | udquery : Nat → V → Event
deriving DecidableEq, Repr

/-- Contents of a Lua table: an association list of key/value pairs.
A key maps to the value of its first binding; absent keys read as nil
(Lua stores no nil-valued entries, and `tblSet` never creates one). -/
abbrev Tbl := List (V × V)

/-- Raw table read (`lua_rawget` semantics on the contents). -/
def tblGet : Tbl → V → V
  | [], _ => V.nil
  | (k', v') :: t, k => if k' = k then v' else tblGet t k

/-- Remove every binding of a key. -/
def eraseKey : Tbl → V → Tbl
  | [], _ => []
  | (k', v') :: t, k => if k' = k then eraseKey t k else (k', v') :: eraseKey t k

/-- Raw table write (`lua_rawset` semantics on the contents): a nil
value deletes the binding, anything else replaces it. -/
def tblSet (t : Tbl) (k v : V) : Tbl :=
  if v = V.nil then eraseKey t k else (k, v) :: eraseKey t k

/-- The embedded interpreter state: the value stack (bottom first), the
table heap, metatable and uservalue associations, the externally
defined field maps of userdata (what `lua_gettable` on them yields), a
fresh-reference counter for `lua_createtable`, and the event trace. -/
structure LS where
  stack : List V
  tables : Nat → Tbl
  tmeta : Nat → Option Nat
  udmeta : Nat → Option Nat
  uduser : Nat → V
  udfields : Nat → Tbl
  nextRef : Nat
  trace : List Event

/-- Error result of an API step: the Lua error object together with the
state at the moment the error was raised. -/
abbrev Err := V × LS

/-- Resolve a possibly negative stack index (`lua_absindex` rule). -/
def stkGet (st : List V) (i : Int) : Option V :=
  let j : Int := if i < 0 then (st.length : Int) + i + 1 else i
  if j ≤ 0 then none else st[j.toNat - 1]?

/-- Top of the stack, if any. -/
def stkTop : List V → Option V
  | [] => none
  | [v] => some v
  | _ :: rest => stkTop rest

/-- Model of `lua_settop`: truncate the stack or pad it with nils. -/
def lua_settop (s : LS) (n : Nat) : LS :=
  { s with stack := s.stack.take n ++ List.replicate (n - s.stack.length) V.nil }

/-- Model of `lua_pushvalue`: push a copy of the slot at an index. -/
def lua_pushvalue (s : LS) (i : Int) : LS :=
  { s with stack := s.stack ++ [(stkGet s.stack i).getD V.nil] }

/-- Model of `lua_pop`. -/
def lua_pop (s : LS) (n : Nat) : LS :=
  { s with stack := s.stack.take (s.stack.length - n) }

/-- Model of `lua_pushnil`. -/
def lua_pushnil (s : LS) : LS :=
  { s with stack := s.stack ++ [V.nil] }

/-- Model of `lua_pushliteral`. -/
def lua_pushliteral (s : LS) (lit : String) : LS :=
  { s with stack := s.stack ++ [V.str lit] }

/-- Model of `lua_insert`: move the top element down to position `i`,
shifting the elements above that position up. -/
def lua_insert (s : LS) (i : Nat) : LS :=
  match stkTop s.stack with
  | none => s
  | some v =>
    { s with stack := s.stack.take (i - 1) ++ v :: (s.stack.drop (i - 1)).dropLast }

/-- Model of `lua_rawget`: the slot at `i` must hold a table; the key is
popped and replaced by the looked-up value, which is also returned (the
C function returns its type tag). -/
def lua_rawget (s : LS) (i : Int) : Except Err (V × LS) :=
  match stkGet s.stack i, stkTop s.stack with
  | some (V.table r), some k =>
    let v := tblGet (s.tables r) k
    Except.ok (v, { s with stack := s.stack.dropLast ++ [v] })
  | _, _ => Except.error (V.str "table expected", s)

/-- Model of `lua_rawset`: the slot at `i` must hold a table; key and
value are popped and the binding updated.  As in the interpreter, a nil
key raises the error "table index is nil". -/
def lua_rawset (s : LS) (i : Int) : Except Err LS :=
  match stkGet s.stack i with
  | some (V.table r) =>
    match stkGet s.stack (-2), stkGet s.stack (-1) with
    | some k, some v =>
      if k = V.nil then Except.error (V.str "table index is nil", s)
      else Except.ok { s with
        stack := s.stack.dropLast.dropLast,
        tables := fun j => if j = r then tblSet (s.tables r) k v else s.tables j }
    | _, _ => Except.error (V.str "not enough elements in the stack", s)
  | _ => Except.error (V.str "table expected", s)

/-- Model of `lua_getuservalue`: the slot at `i` must hold a userdata;
its uservalue is pushed and returned. -/
def lua_getuservalue (s : LS) (i : Int) : Except Err (V × LS) :=
  match stkGet s.stack i with
  | some (V.userdata r) =>
    Except.ok (s.uduser r, { s with stack := s.stack ++ [s.uduser r] })
  | _ => Except.error (V.str "userdata expected", s)

/-- Model of `lua_setuservalue`: pop the top value and store it as the
uservalue of the userdata at index `i`. -/
def lua_setuservalue (s : LS) (i : Int) : Except Err LS :=
  match stkGet s.stack i, stkTop s.stack with
  | some (V.userdata r), some v =>
    Except.ok { s with
      stack := s.stack.dropLast,
      uduser := fun j => if j = r then v else s.uduser j }
  | _, _ => Except.error (V.str "userdata expected", s)

/-- Model of `lua_createtable`: allocate a fresh empty table (with no
metatable) and push a reference to it. -/
def lua_createtable (s : LS) : LS :=
  { s with
    stack := s.stack ++ [V.table s.nextRef],
    tables := fun j => if j = s.nextRef then [] else s.tables j,
    tmeta := fun j => if j = s.nextRef then none else s.tmeta j,
    nextRef := s.nextRef + 1 }

/-- Metatable reference of the object in a stack slot, if any. -/
def metaRef (s : LS) : Option V → Option Nat
  | some (V.userdata r) => s.udmeta r
  | some (V.table r) => s.tmeta r
  | _ => none

/-- Model of `luaL_getmetafield`: if the object at index `i` has a
metatable containing a non-nil field `name`, push that field and return
it; otherwise push nothing and return nil (the C function returns
`LUA_TNIL`). -/
def luaL_getmetafield (s : LS) (i : Int) (name : String) : V × LS :=
  match metaRef s (stkGet s.stack i) with
  | some m =>
    let v := tblGet (s.tables m) (V.str name)
    if v = V.nil then (V.nil, s)
    else (v, { s with stack := s.stack ++ [v] })
  | none => (V.nil, s)

/-- Model of `lua_gettable` as used on the wrapped userdata: pop the
key, query the externally defined field map of the userdata at index
`i`, push the result and record the query in the trace.  This stands
for the indexing resolution of the wrapped native value, which is
outside this component. -/
def lua_gettable (s : LS) (i : Int) : Except Err (V × LS) :=
  match stkGet s.stack i, stkTop s.stack with
  | some (V.userdata r), some k =>
    let v := tblGet (s.udfields r) k
    Except.ok (v, { s with
      stack := s.stack.dropLast ++ [v],
      trace := s.trace ++ [Event.udquery r k] })
  | _, _ => Except.error (V.str "attempt to index a non-table value", s)

/-- Model of `lua_call` with one argument and one result, as used for
getter invocation: the function and its argument are popped, the result
of the host function (given by the pure environment `fenv`) is pushed,
and the invocation is recorded in the trace. -/
def lua_call (fenv : Nat → V → V) (s : LS) : Except Err LS :=
  match stkGet s.stack (-2), stkTop s.stack with
  | some (V.function f), some arg =>
    Except.ok { s with
      stack := s.stack.dropLast.dropLast ++ [fenv f arg],
      trace := s.trace ++ [Event.call f arg] }
  | _, _ => Except.error (V.str "attempt to call a non-function value", s)

/-- Model of `luaL_checktype`: raise a bad-argument error unless the
slot at index `i` has the requested type. -/
def luaL_checktype (s : LS) (i : Int) (t : LType) : Except Err LS :=
  if ltypeOf (stkGet s.stack i) = t then Except.ok s
  else Except.error (V.str "bad argument (type mismatch)", s)

/-- Model of `luaL_checkany`: raise a bad-argument error exactly when
the slot at index `i` is absent (`LUA_TNONE`); a nil argument passes. -/
def luaL_checkany (s : LS) (i : Int) : Except Err LS :=
  match stkGet s.stack i with
  | none => Except.error (V.str "bad argument (value expected)", s)
  | some _ => Except.ok s

/-- Model of `lua_error`: raise the value on top of the stack. -/
def lua_error (s : LS) : Except Err LS :=
  Except.error ((stkTop s.stack).getD V.nil, s)

/-- Transcription of `hslua_wrappedudindex` (hslpackaging.c lines
15-49): try the wrapping table itself, then fetch the wrapped userdata
from the reserved key `_hslua_value` (raising the corrupted-object
error if that slot does not hold a userdata), query it, self-cache a
non-nil result into the wrapping table, and fall back to nil. -/
def hslua_wrappedudindex (s0 : LS) : Except Err LS :=
  match luaL_checktype s0 1 LType.tTABLE with
  | Except.error e => Except.error e
  | Except.ok s1 =>
    let s2 := lua_settop s1 2
    let s3 := lua_pushvalue s2 2
    match lua_rawget s3 1 with
    | Except.error e => Except.error e
    | Except.ok (v1, s4) =>
      if v1.ltype ≠ LType.tNIL then Except.ok s4
      else
        let s5 := lua_pop s4 1
        let s6 := lua_pushliteral s5 "_hslua_value"
        match lua_rawget s6 1 with
        | Except.error e => Except.error e
        | Except.ok (v2, s7) =>
          if v2.ltype ≠ LType.tUSERDATA then
            lua_error (lua_pushliteral s7 "Corrupted object, wrapped userdata not found.")
          else
            let s8 := lua_pushvalue s7 2
            match lua_gettable s8 (-2) with
            | Except.error e => Except.error e
            | Except.ok (v3, s9) =>
              if v3.ltype ≠ LType.tNIL then
                let s10 := lua_pushvalue s9 2
                let s11 := lua_pushvalue s10 (-2)
                match lua_rawset s11 1 with
                | Except.error e => Except.error e
                | Except.ok s12 => Except.ok s12
              else Except.ok (lua_pushnil s9)

/-- Transcription of `hsluaP_get_caching_table` (hslpackaging.c lines
51-61): push the uservalue of the userdata at `idx`; when it is nil,
replace it by a freshly created table which is also attached as the
uservalue.  The C function computes `lua_absindex` of `idx` but then
uses `idx` itself again; we mirror that. -/
def hsluaP_get_caching_table (s0 : LS) (idx : Int) : Except Err LS :=
  let _absidx := if idx < 0 then (s0.stack.length : Int) + idx + 1 else idx
  match lua_getuservalue s0 idx with
  | Except.error e => Except.error e
  | Except.ok (uv, s1) =>
    if uv.ltype = LType.tNIL then
      let s2 := lua_pop s1 1
      let s3 := lua_createtable s2
      let s4 := lua_pushvalue s3 (-1)
      match lua_setuservalue s4 idx with
      | Except.error e => Except.error e
      | Except.ok s5 => Except.ok s5
    else Except.ok s1

/-- Transcription of the tail of `hslua_cachedindex` (hslpackaging.c
lines 97-106), reached when the getter tier did not produce a value:
consult the `methods` metafield, returning the raw lookup result if the
metafield is a table, and otherwise pop once and return nil. -/
def hslua_cachedindex_cont (s : LS) : Except Err LS :=
  match luaL_getmetafield s 1 "methods" with
  | (mv, s1) =>
    if mv.ltype = LType.tTABLE then
      let s2 := lua_pushvalue s1 2
      match lua_rawget s2 (-2) with
      | Except.error e => Except.error e
      | Except.ok (_, s3) => Except.ok s3
    else
      Except.ok (lua_pushnil (lua_pop s1 1))

/-- Transcription of `hslua_cachedindex` (hslpackaging.c lines 67-107):
ensure a caching table (stack slot 3), serve a non-nil cached value
immediately; otherwise consult the `getters` metafield, and when it is
a table holding a non-nil entry for the key, call that entry with the
proxy as sole argument, raw-set the result into the caching table and
return it; otherwise continue with the methods tier. -/
def hslua_cachedindex (fenv : Nat → V → V) (s0 : LS) : Except Err LS :=
  let s1 := lua_settop s0 2
  match hsluaP_get_caching_table s1 1 with
  | Except.error e => Except.error e
  | Except.ok s2 =>
    let s3 := lua_pushvalue s2 2
    match lua_rawget s3 3 with
    | Except.error e => Except.error e
    | Except.ok (cv, s4) =>
      if cv.ltype ≠ LType.tNIL then Except.ok s4
      else
        let s5 := lua_pop s4 1
        match luaL_getmetafield s5 1 "getters" with
        | (gv, s6) =>
          if gv.ltype = LType.tTABLE then
            let s7 := lua_pushvalue s6 2
            match lua_rawget s7 (-2) with
            | Except.error e => Except.error e
            | Except.ok (ge, s8) =>
              if ge.ltype ≠ LType.tNIL then
                let s9 := lua_pushvalue s8 1
                match lua_call fenv s9 with
                | Except.error e => Except.error e
                | Except.ok s10 =>
                  let s11 := lua_pushvalue s10 2
                  let s12 := lua_pushvalue s11 (-2)
                  match lua_rawset s12 3 with
                  | Except.error e => Except.error e
                  | Except.ok s13 => Except.ok s13
              else
                hslua_cachedindex_cont (lua_pop s8 1)
          else
            hslua_cachedindex_cont s6

/-- Transcription of `hslua_cachedsetindex` (hslpackaging.c lines
109-116): require some third argument, ensure the caching table, move
it below key and value, and raw-set the pair into it. -/
def hslua_cachedsetindex (s0 : LS) : Except Err LS :=
  match luaL_checkany s0 3 with
  | Except.error e => Except.error e
  | Except.ok s1 =>
    let s2 := lua_settop s1 3
    match hsluaP_get_caching_table s2 1 with
    | Except.error e => Except.error e
    | Except.ok s3 =>
      let s4 := lua_insert s3 2
      match lua_rawset s4 2 with
      | Except.error e => Except.error e
      | Except.ok s5 => Except.ok s5

/-- Result value of a completed call: the top of the final stack (Lua C
functions returning 1 hand back the value on top). -/
def retOf : Except Err LS → Option V
  | Except.ok s => stkTop s.stack
  | Except.error _ => none

/-- Whether a call completed without raising a Lua error. -/
def isOk : Except Err LS → Bool
  | Except.ok _ => true
  | Except.error _ => false

/-- Error object of a failed call, if any. -/
def errOf : Except Err LS → Option V
  | Except.ok _ => none
  | Except.error (e, _) => some e

/-- Event trace of a completed call. -/
def traceOf : Except Err LS → Option (List Event)
  | Except.ok s => some s.trace
  | Except.error _ => none

/-- Contents a completed call leaves under key `k` of table `c`. -/
def cacheVal (x : Except Err LS) (c : Nat) (k : V) : Option V :=
  match x with
  | Except.ok s => some (tblGet (s.tables c) k)
  | Except.error _ => none

/-- Table heap a completed call leaves behind. -/
def tablesOf : Except Err LS → Option (Nat → Tbl)
  | Except.ok s => some s.tables
  | Except.error _ => none

/-- Sequencing of calls: run the continuation on the state a successful
call left behind, propagating errors ("a subsequent call with no
intervening operation"). -/
def afterOk (x : Except Err LS) (f : LS → Except Err LS) : Except Err LS :=
  match x with
  | Except.ok s => f s
  | Except.error e => Except.error e

/-- Invoke `hslua_cachedindex` under the Lua calling convention: a fresh
stack holding the proxy userdata `r` and the key. -/
def runIndex (fenv : Nat → V → V) (s : LS) (r : Nat) (k : V) : Except Err LS :=
  hslua_cachedindex fenv { s with stack := [V.userdata r, k] }

/-- Invoke `hslua_cachedsetindex` under the Lua calling convention. -/
def runSetindex (s : LS) (r : Nat) (k v : V) : Except Err LS :=
  hslua_cachedsetindex { s with stack := [V.userdata r, k, v] }

/-- Invoke `hslua_wrappedudindex` under the Lua calling convention: a
fresh stack holding the wrapping table `t` and the key. -/
def runWrapped (s : LS) (t : Nat) (k : V) : Except Err LS :=
  hslua_wrappedudindex { s with stack := [V.table t, k] }

/-- Example class layout: table 10 is the metatable of proxy userdata 0,
table 11 its getters (getter 0 for key "k", getter 1 for key "kn"),
table 12 its methods (key "m"), table 13 the attached caching table.
Table 20 wraps userdata 5; table 21 is a corrupted wrapper that also
holds a local entry. -/
def tablesEx : Nat → Tbl := fun r =>
  if r = 10 then [(V.str "getters", V.table 11), (V.str "methods", V.table 12)]
  else if r = 11 then [(V.str "k", V.function 0), (V.str "kn", V.function 1)]
  else if r = 12 then [(V.str "m", V.num 7)]
  else if r = 20 then [(V.str "_hslua_value", V.userdata 5)]
  else if r = 21 then [(V.str "k", V.num 7), (V.str "_hslua_value", V.num 3)]
  else []

/-- Example host environment: getter 0 yields 5, every other function
yields nil. -/
def fenvEx : Nat → V → V := fun f _ => if f = 0 then V.num 5 else V.nil

/-- Example state over `tablesEx`: proxy userdata 0 carries metatable 10
and caching table 13 (empty); userdata 5 exposes field "x" with value
5. -/
def sEx : LS where
  stack := []
  tables := tablesEx
  tmeta := fun _ => none
  udmeta := fun r => if r = 0 then some 10 else none
  uduser := fun r => if r = 0 then V.table 13 else V.nil
  udfields := fun r => if r = 5 then [(V.str "x", V.num 5)] else []
  nextRef := 100
  trace := []

/-- Example state whose caching table already binds "k" to 5. -/
def sExC : LS :=
  { sEx with tables := fun r => if r = 13 then [(V.str "k", V.num 5)] else tablesEx r }

/-- Type tags of the value constructors, for rewriting. -/
@[simp] theorem ltype_nil : V.nil.ltype = LType.tNIL := rfl

@[simp] theorem ltype_boolean (b : Bool) : (V.boolean b).ltype = LType.tBOOLEAN := rfl

@[simp] theorem ltype_num (n : Int) : (V.num n).ltype = LType.tNUMBER := rfl

@[simp] theorem ltype_str (x : String) : (V.str x).ltype = LType.tSTRING := rfl

@[simp] theorem ltype_table (r : Nat) : (V.table r).ltype = LType.tTABLE := rfl

@[simp] theorem ltype_userdata (r : Nat) : (V.userdata r).ltype = LType.tUSERDATA := rfl

@[simp] theorem ltype_function (r : Nat) : (V.function r).ltype = LType.tFUNCTION := rfl

/-- A value has type tag `tNIL` exactly when it is nil. -/
@[simp] theorem ltype_eq_tNIL {v : V} : v.ltype = LType.tNIL ↔ v = V.nil := by
  cases v <;> simp [V.ltype]

/-- Reading an erased key yields nil; other keys are unaffected. -/
theorem tblGet_eraseKey (t : Tbl) (k k' : V) :
    tblGet (eraseKey t k) k' = if k' = k then V.nil else tblGet t k' := by
  induction t with
  | nil => simp [eraseKey, tblGet]
  | cons p t ih =>
    obtain ⟨a, b⟩ := p
    simp only [eraseKey, tblGet]
    by_cases hak : a = k
    · simp only [if_pos hak, ih]
      by_cases hk' : k' = k
      · simp only [if_pos hk']
      · simp only [if_neg hk',
          if_neg (show ¬ a = k' from fun h => hk' (h.symm.trans hak))]
    · simp only [if_neg hak, tblGet, ih]
      by_cases hak' : a = k'
      · simp only [if_pos hak',
          if_neg (show ¬ k' = k from fun h => hak (hak'.trans h))]
      · simp only [if_neg hak']

/-- Reading back the key just written yields the written value (with a
nil write reading back as nil, i.e. as a deleted binding). -/
theorem tblGet_tblSet_self (t : Tbl) (k v : V) : tblGet (tblSet t k v) k = v := by
  by_cases hv : v = V.nil
  · simp [tblSet, hv, tblGet_eraseKey]
  · simp [tblSet, hv, tblGet]

/-- Writing one key leaves the reading of any other key unchanged. -/
theorem tblGet_tblSet_ne (t : Tbl) (k v k' : V) (h : k' ≠ k) :
    tblGet (tblSet t k v) k' = tblGet t k' := by
  by_cases hv : v = V.nil
  · simp [tblSet, hv, tblGet_eraseKey, h]
  · simp only [tblSet, if_neg hv, tblGet,
      if_neg (show ¬ k = k' from fun hh => h hh.symm)]
    simp [tblGet_eraseKey, h]

/-- C1 (amended): for every proxy and non-nil key and non-nil value,
after `cachedsetindex` succeeds, a subsequent `cachedindex` with no
intervening write returns the written value — whatever the metatable of
the proxy holds, so in particular even if a getter for the key exists
and would return a different value; the cache check fires before the
getter lookup.  Both the fresh-proxy case (no caching table yet) and
the attached-cache case are covered. -/
theorem cachedsetindex_shadows (fenv : Nat → V → V) (s : LS) (r c : Nat) (k v : V)
    (huv : s.uduser r = V.nil ∨ s.uduser r = V.table c)
    (hk : k ≠ V.nil) (hv : v ≠ V.nil) :
    retOf (afterOk (runSetindex s r k v) (fun s1 => runIndex fenv s1 r k)) = some v := by
  rcases huv with h | h <;>
    simp [runSetindex, runIndex, hslua_cachedsetindex, hslua_cachedindex,
      hsluaP_get_caching_table, luaL_checkany, lua_settop, lua_getuservalue, lua_pop,
      lua_createtable, lua_pushvalue, lua_setuservalue, lua_insert, lua_rawset, lua_rawget,
      stkGet, stkTop, afterOk, retOf, h, hk, hv, tblGet_tblSet_self, tblGet]

/-- Witness for C1: writing 9 under "k" on the example proxy and
reading it back returns 9 although getter 0 for "k" would return 5. -/
theorem cachedsetindex_shadows_witness :
    (sEx.uduser 0 = V.nil ∨ sEx.uduser 0 = V.table 13) ∧
    (V.str "k" ≠ V.nil) ∧ (V.num 9 ≠ V.nil) ∧
    retOf (afterOk (runSetindex sEx 0 (V.str "k") (V.num 9))
        (fun s1 => runIndex fenvEx s1 0 (V.str "k"))) = some (V.num 9) :=
  ⟨Or.inr (by decide), by decide, by decide,
    cachedsetindex_shadows fenvEx sEx 0 13 (V.str "k") (V.num 9)
      (Or.inr (by decide)) (by decide) (by decide)⟩

/-- Counterexample to C1 as stated: with the nil value,
`cachedsetindex` succeeds, yet the subsequent `cachedindex` returns the
getter result 5 rather than the written nil. -/
theorem cachedsetindex_nil_value_not_returned :
    isOk (runSetindex sEx 0 (V.str "k") V.nil) = true ∧
    retOf (afterOk (runSetindex sEx 0 (V.str "k") V.nil)
        (fun s1 => runIndex fenvEx s1 0 (V.str "k"))) = some (V.num 5) ∧
    V.num 5 ≠ V.nil := by
  refine ⟨by decide, by decide, by decide⟩

/-- C2 (amended): `cachedsetindex` fails exactly at `luaL_checkany`
when the value argument is missing altogether (stack of two slots, type
`LUA_TNONE` at index 3), and the state carried by the error is the
input state itself — in particular no table, hence no Cache, was
mutated.  A nil value, by contrast, passes `luaL_checkany`. -/
theorem cachedsetindex_missing_value (s : LS) (r : Nat) (k : V) :
    hslua_cachedsetindex { s with stack := [V.userdata r, k] } =
      Except.error (V.str "bad argument (value expected)",
        { s with stack := [V.userdata r, k] }) := by
  rfl

/-- Counterexample to C2 as stated: writing the nil value on the
example proxy whose cache binds "k" to 5 succeeds and deletes that
binding — the call neither fails nor leaves the Cache unchanged. -/
theorem cachedsetindex_nil_value_accepted :
    isOk (runSetindex sExC 0 (V.str "k") V.nil) = true ∧
    cacheVal (runSetindex sExC 0 (V.str "k") V.nil) 13 (V.str "k") = some V.nil ∧
    tblGet (sExC.tables 13) (V.str "k") = V.num 5 := by
  refine ⟨by decide, by decide, by decide⟩

/-- C3 (amended): for a proxy whose caching table has no entry for the
key and whose metatable getters table binds the key to host function
`g` with a non-nil result, the first `cachedindex` invokes `g` exactly
once with the proxy as sole argument, returns and caches its result,
and a second `cachedindex` with no intervening write returns the same
value from the cache without invoking `g` again (the trace after the
second read still holds a single invocation). -/
theorem getter_cached_once (fenv : Nat → V → V) (s : LS) (r c m gt g : Nat) (k : V)
    (hk : k ≠ V.nil)
    (huv : s.uduser r = V.table c)
    (hc : tblGet (s.tables c) k = V.nil)
    (hm : s.udmeta r = some m)
    (hg : tblGet (s.tables m) (V.str "getters") = V.table gt)
    (hgk : tblGet (s.tables gt) k = V.function g)
    (hnv : fenv g (V.userdata r) ≠ V.nil) :
    retOf (runIndex fenv s r k) = some (fenv g (V.userdata r)) ∧
    traceOf (runIndex fenv s r k) = some (s.trace ++ [Event.call g (V.userdata r)]) ∧
    cacheVal (runIndex fenv s r k) c k = some (fenv g (V.userdata r)) ∧
    retOf (afterOk (runIndex fenv s r k) (fun s1 => runIndex fenv s1 r k))
      = some (fenv g (V.userdata r)) ∧
    traceOf (afterOk (runIndex fenv s r k) (fun s1 => runIndex fenv s1 r k))
      = some (s.trace ++ [Event.call g (V.userdata r)]) := by
  refine ⟨?_, ?_, ?_, ?_, ?_⟩ <;>
    simp [runIndex, hslua_cachedindex, hslua_cachedindex_cont, hsluaP_get_caching_table,
      luaL_getmetafield, metaRef, lua_settop, lua_getuservalue, lua_pop, lua_pushvalue,
      lua_rawget, lua_rawset, lua_call, stkGet, stkTop, afterOk, retOf, traceOf, cacheVal,
      hk, huv, hc, hm, hg, hgk, hnv, tblGet_tblSet_self]

/-- Witness for C3: getter 0 of the example proxy is consulted once for
"k", its result 5 is cached and served to the second read. -/
theorem getter_cached_once_witness :
    (V.str "k" ≠ V.nil) ∧ (sEx.uduser 0 = V.table 13) ∧
    (tblGet (sEx.tables 13) (V.str "k") = V.nil) ∧ (sEx.udmeta 0 = some 10) ∧
    (tblGet (sEx.tables 10) (V.str "getters") = V.table 11) ∧
    (tblGet (sEx.tables 11) (V.str "k") = V.function 0) ∧
    (fenvEx 0 (V.userdata 0) ≠ V.nil) ∧
    (retOf (runIndex fenvEx sEx 0 (V.str "k")) = some (V.num 5) ∧
     traceOf (runIndex fenvEx sEx 0 (V.str "k"))
       = some (sEx.trace ++ [Event.call 0 (V.userdata 0)]) ∧
     cacheVal (runIndex fenvEx sEx 0 (V.str "k")) 13 (V.str "k") = some (V.num 5) ∧
     retOf (afterOk (runIndex fenvEx sEx 0 (V.str "k"))
         (fun s1 => runIndex fenvEx s1 0 (V.str "k"))) = some (V.num 5) ∧
     traceOf (afterOk (runIndex fenvEx sEx 0 (V.str "k"))
         (fun s1 => runIndex fenvEx s1 0 (V.str "k")))
       = some (sEx.trace ++ [Event.call 0 (V.userdata 0)])) :=
  ⟨by decide, by decide, by decide, by decide, by decide, by decide, by decide,
    getter_cached_once fenvEx sEx 0 13 10 11 0 (V.str "k")
      (by decide) (by decide) (by decide) (by decide) (by decide) (by decide) (by decide)⟩

/-- Counterexample to C3 as stated: getter 1 for "kn" returns nil, so
nothing is stored, and the second read invokes the getter a second time
— the trace after two reads holds two invocations. -/
theorem nil_getter_called_twice :
    traceOf (runIndex fenvEx sEx 0 (V.str "kn")) = some [Event.call 1 (V.userdata 0)] ∧
    traceOf (afterOk (runIndex fenvEx sEx 0 (V.str "kn"))
        (fun s1 => runIndex fenvEx s1 0 (V.str "kn")))
      = some [Event.call 1 (V.userdata 0), Event.call 1 (V.userdata 0)] := by
  refine ⟨by decide, by decide⟩

/-- C4 (amended): for every wrapping table whose reserved key
`_hslua_value` does not hold a userdata, and every key that has no raw
entry in the wrapping table itself, `wrappedudindex` fails with the
distinct corrupted-object error. -/
theorem wrapped_corrupted (s : LS) (t : Nat) (k : V)
    (hk : tblGet (s.tables t) k = V.nil)
    (hw : (tblGet (s.tables t) (V.str "_hslua_value")).ltype ≠ LType.tUSERDATA) :
    errOf (runWrapped s t k)
      = some (V.str "Corrupted object, wrapped userdata not found.") := by
  simp [runWrapped, hslua_wrappedudindex, luaL_checktype, ltypeOf, lua_settop,
    lua_pushvalue, lua_pop, lua_pushliteral, lua_rawget, lua_error, stkGet, stkTop,
    errOf, hk, hw]

/-- Witness for C4: table 21 carries the number 3 under the reserved
key, so looking up the locally absent key "y" raises the
corrupted-object error. -/
theorem wrapped_corrupted_witness :
    (tblGet (sEx.tables 21) (V.str "y") = V.nil) ∧
    ((tblGet (sEx.tables 21) (V.str "_hslua_value")).ltype ≠ LType.tUSERDATA) ∧
    errOf (runWrapped sEx 21 (V.str "y"))
      = some (V.str "Corrupted object, wrapped userdata not found.") :=
  ⟨by decide, by decide, wrapped_corrupted sEx 21 (V.str "y") (by decide) (by decide)⟩

/-- Counterexample to C4 as stated: table 21 has a corrupted reserved
key, yet looking up "k", which the table binds locally to 7, returns 7
and raises no error — the local lookup fires before the wrapper check,
so the failure is not raised "for every key". -/
theorem wrapped_local_entry_bypasses_check :
    (tblGet (sEx.tables 21) (V.str "_hslua_value")).ltype ≠ LType.tUSERDATA ∧
    retOf (runWrapped sEx 21 (V.str "k")) = some (V.num 7) ∧
    errOf (runWrapped sEx 21 (V.str "k")) = none := by
  refine ⟨by decide, by decide, by decide⟩

/-- C5 (confirmed): when the caching table has no entry for the key and
the getters table has none either, but the methods table binds it to
`mv`, `cachedindex` returns `mv` directly, leaves the whole table heap
untouched (in particular no cache insertion), performs no host call,
and the caching table still has no entry for the key afterwards. -/
theorem method_uncached (fenv : Nat → V → V) (s : LS) (r c m gt mt : Nat) (k mv : V)
    (huv : s.uduser r = V.table c)
    (hc : tblGet (s.tables c) k = V.nil)
    (hm : s.udmeta r = some m)
    (hg : tblGet (s.tables m) (V.str "getters") = V.table gt)
    (hgk : tblGet (s.tables gt) k = V.nil)
    (hmt : tblGet (s.tables m) (V.str "methods") = V.table mt)
    (hmk : tblGet (s.tables mt) k = mv) :
    retOf (runIndex fenv s r k) = some mv ∧
    tablesOf (runIndex fenv s r k) = some s.tables ∧
    traceOf (runIndex fenv s r k) = some s.trace ∧
    cacheVal (runIndex fenv s r k) c k = some V.nil := by
  refine ⟨?_, ?_, ?_, ?_⟩ <;>
    simp [runIndex, hslua_cachedindex, hslua_cachedindex_cont, hsluaP_get_caching_table,
      luaL_getmetafield, metaRef, lua_settop, lua_getuservalue, lua_pop, lua_pushvalue,
      lua_rawget, stkGet, stkTop, retOf, traceOf, cacheVal, tablesOf,
      huv, hc, hm, hg, hgk, hmt, hmk]

/-- Witness for C5: method "m" of the example proxy is returned as the
value 7 and the heap is untouched. -/
theorem method_uncached_witness :
    (sEx.uduser 0 = V.table 13) ∧
    (tblGet (sEx.tables 13) (V.str "m") = V.nil) ∧ (sEx.udmeta 0 = some 10) ∧
    (tblGet (sEx.tables 10) (V.str "getters") = V.table 11) ∧
    (tblGet (sEx.tables 11) (V.str "m") = V.nil) ∧
    (tblGet (sEx.tables 10) (V.str "methods") = V.table 12) ∧
    (tblGet (sEx.tables 12) (V.str "m") = V.num 7) ∧
    (retOf (runIndex fenvEx sEx 0 (V.str "m")) = some (V.num 7) ∧
     tablesOf (runIndex fenvEx sEx 0 (V.str "m")) = some sEx.tables ∧
     traceOf (runIndex fenvEx sEx 0 (V.str "m")) = some sEx.trace ∧
     cacheVal (runIndex fenvEx sEx 0 (V.str "m")) 13 (V.str "m") = some V.nil) :=
  ⟨by decide, by decide, by decide, by decide, by decide, by decide, by decide,
    method_uncached fenvEx sEx 0 13 10 11 12 (V.str "m") (V.num 7)
      (by decide) (by decide) (by decide) (by decide) (by decide) (by decide) (by decide)⟩

/-- C6 (confirmed): when a caching table is already attached as the
uservalue of the proxy, `hsluaP_get_caching_table` merely pushes that
table and leaves the state otherwise unchanged — it never replaces or
clears an existing cache.  Consequently, repeating the call after an
entry has been inserted still yields a cache containing that entry:
the second conjunct runs the helper on the state with the insertion
performed, and the third reads the entry back. -/
theorem get_caching_table_keeps_existing (s : LS) (i : Int) (r c : Nat) (k v : V)
    (hi : stkGet s.stack i = some (V.userdata r))
    (huv : s.uduser r = V.table c) :
    hsluaP_get_caching_table s i = Except.ok { s with stack := s.stack ++ [V.table c] } ∧
    (hsluaP_get_caching_table
        { s with tables := fun j => if j = c then tblSet (s.tables c) k v else s.tables j } i
      = Except.ok { s with
          tables := fun j => if j = c then tblSet (s.tables c) k v else s.tables j,
          stack := s.stack ++ [V.table c] } ∧
      tblGet (tblSet (s.tables c) k v) k = v) := by
  refine ⟨?_, ?_, tblGet_tblSet_self _ _ _⟩
  · simp [hsluaP_get_caching_table, lua_getuservalue, hi, huv]
  · simp [hsluaP_get_caching_table, lua_getuservalue, hi, huv]

/-- Witness for C6 at the example proxy with its attached cache 13. -/
theorem get_caching_table_keeps_existing_witness :
    (stkGet (LS.stack { sEx with stack := [V.userdata 0] }) 1 = some (V.userdata 0)) ∧
    (LS.uduser { sEx with stack := [V.userdata 0] } 0 = V.table 13) ∧
    hsluaP_get_caching_table { sEx with stack := [V.userdata 0] } 1 =
      Except.ok { sEx with stack := [V.userdata 0, V.table 13] } :=
  ⟨by decide, by decide,
    (get_caching_table_keeps_existing { sEx with stack := [V.userdata 0] } 1 0 13
      (V.str "k") (V.num 5) (by decide) (by decide)).1⟩

/-- C7 (confirmed): for a wrapping table with no local entry for the
key and a wrapped userdata exposing the key with a non-nil value `w`,
`wrappedudindex` returns `w`, writes the binding into the wrapping
table, and queries the wrapped handle exactly once; a second call —
even after the field maps of every userdata have been replaced by an
arbitrary `F` — is served from the wrapping table, returning the same
`w` with no further query of the handle. -/
theorem wrapped_self_caching (s : LS) (t u : Nat) (k w : V) (F : Nat → Tbl)
    (hk0 : k ≠ V.nil)
    (hk : tblGet (s.tables t) k = V.nil)
    (hw : tblGet (s.tables t) (V.str "_hslua_value") = V.userdata u)
    (hf : tblGet (s.udfields u) k = w)
    (hwn : w ≠ V.nil) :
    retOf (runWrapped s t k) = some w ∧
    cacheVal (runWrapped s t k) t k = some w ∧
    traceOf (runWrapped s t k) = some (s.trace ++ [Event.udquery u k]) ∧
    retOf (afterOk (runWrapped s t k)
        (fun s1 => runWrapped { s1 with udfields := F } t k)) = some w ∧
    traceOf (afterOk (runWrapped s t k)
        (fun s1 => runWrapped { s1 with udfields := F } t k))
      = some (s.trace ++ [Event.udquery u k]) := by
  refine ⟨?_, ?_, ?_, ?_, ?_⟩ <;>
    simp [runWrapped, hslua_wrappedudindex, luaL_checktype, ltypeOf, lua_settop,
      lua_pushvalue, lua_pop, lua_pushliteral, lua_rawget, lua_rawset, lua_gettable,
      stkGet, stkTop, afterOk, retOf, traceOf, cacheVal,
      hk0, hk, hw, hf, hwn, tblGet_tblSet_self]

/-- Witness for C7: table 20 wraps userdata 5 which exposes "x" as 5;
the second read still returns 5 although the field maps have been
emptied in between. -/
theorem wrapped_self_caching_witness :
    (V.str "x" ≠ V.nil) ∧
    (tblGet (sEx.tables 20) (V.str "x") = V.nil) ∧
    (tblGet (sEx.tables 20) (V.str "_hslua_value") = V.userdata 5) ∧
    (tblGet (sEx.udfields 5) (V.str "x") = V.num 5) ∧
    (V.num 5 ≠ V.nil) ∧
    (retOf (runWrapped sEx 20 (V.str "x")) = some (V.num 5) ∧
     cacheVal (runWrapped sEx 20 (V.str "x")) 20 (V.str "x") = some (V.num 5) ∧
     traceOf (runWrapped sEx 20 (V.str "x"))
       = some (sEx.trace ++ [Event.udquery 5 (V.str "x")]) ∧
     retOf (afterOk (runWrapped sEx 20 (V.str "x"))
         (fun s1 => runWrapped { s1 with udfields := fun _ => [] } 20 (V.str "x")))
       = some (V.num 5) ∧
     traceOf (afterOk (runWrapped sEx 20 (V.str "x"))
         (fun s1 => runWrapped { s1 with udfields := fun _ => [] } 20 (V.str "x")))
       = some (sEx.trace ++ [Event.udquery 5 (V.str "x")])) :=
  ⟨by decide, by decide, by decide, by decide, by decide,
    wrapped_self_caching sEx 20 5 (V.str "x") (V.num 5) (fun _ => [])
      (by decide) (by decide) (by decide) (by decide) (by decide)⟩

/-- C8 (confirmed): for a key absent from the caching table, from the
getters table and from the methods table, `cachedindex` completes
without error and returns nil — the not-found sentinel is a normal
result. -/
theorem cachedindex_absent_nil (fenv : Nat → V → V) (s : LS) (r c m gt mt : Nat) (k : V)
    (huv : s.uduser r = V.table c)
    (hc : tblGet (s.tables c) k = V.nil)
    (hm : s.udmeta r = some m)
    (hg : tblGet (s.tables m) (V.str "getters") = V.table gt)
    (hgk : tblGet (s.tables gt) k = V.nil)
    (hmt : tblGet (s.tables m) (V.str "methods") = V.table mt)
    (hmk : tblGet (s.tables mt) k = V.nil) :
    isOk (runIndex fenv s r k) = true ∧
    retOf (runIndex fenv s r k) = some V.nil := by
  refine ⟨?_, ?_⟩ <;>
    simp [runIndex, hslua_cachedindex, hslua_cachedindex_cont, hsluaP_get_caching_table,
      luaL_getmetafield, metaRef, lua_settop, lua_getuservalue, lua_pop, lua_pushvalue,
      lua_rawget, stkGet, stkTop, retOf, isOk,
      huv, hc, hm, hg, hgk, hmt, hmk]

/-- Witness for C8: key "zz" is absent from all three tiers of the
example proxy and reads as nil without error. -/
theorem cachedindex_absent_nil_witness :
    (sEx.uduser 0 = V.table 13) ∧
    (tblGet (sEx.tables 13) (V.str "zz") = V.nil) ∧ (sEx.udmeta 0 = some 10) ∧
    (tblGet (sEx.tables 10) (V.str "getters") = V.table 11) ∧
    (tblGet (sEx.tables 11) (V.str "zz") = V.nil) ∧
    (tblGet (sEx.tables 10) (V.str "methods") = V.table 12) ∧
    (tblGet (sEx.tables 12) (V.str "zz") = V.nil) ∧
    (isOk (runIndex fenvEx sEx 0 (V.str "zz")) = true ∧
     retOf (runIndex fenvEx sEx 0 (V.str "zz")) = some V.nil) :=
  ⟨by decide, by decide, by decide, by decide, by decide, by decide, by decide,
    cachedindex_absent_nil fenvEx sEx 0 13 10 11 12 (V.str "zz")
      (by decide) (by decide) (by decide) (by decide) (by decide) (by decide) (by decide)⟩

/-- C9 (confirmed): writing nil through `cachedsetindex` succeeds and
removes the cache binding for the (non-nil) key, so a subsequent
`cachedindex` falls through the cache tier: with a getter for the key
in place it invokes that getter and returns its result rather than the
written nil.  The caching table is required to be distinct from the
metatable and the getters table, and a nil key is excluded since the
underlying raw set would itself raise. -/
theorem setindex_nil_deletes (fenv : Nat → V → V) (s : LS) (r c m gt g : Nat) (k : V)
    (hk : k ≠ V.nil)
    (huv : s.uduser r = V.table c)
    (hm : s.udmeta r = some m)
    (hg : tblGet (s.tables m) (V.str "getters") = V.table gt)
    (hgk : tblGet (s.tables gt) k = V.function g)
    (hmc : m ≠ c) (hgc : gt ≠ c) :
    isOk (runSetindex s r k V.nil) = true ∧
    cacheVal (runSetindex s r k V.nil) c k = some V.nil ∧
    retOf (afterOk (runSetindex s r k V.nil) (fun s1 => runIndex fenv s1 r k))
      = some (fenv g (V.userdata r)) ∧
    traceOf (afterOk (runSetindex s r k V.nil) (fun s1 => runIndex fenv s1 r k))
      = some (s.trace ++ [Event.call g (V.userdata r)]) := by
  refine ⟨?_, ?_, ?_, ?_⟩ <;>
    simp [runSetindex, runIndex, hslua_cachedsetindex, hslua_cachedindex,
      hsluaP_get_caching_table, luaL_checkany, luaL_getmetafield, metaRef, lua_settop,
      lua_getuservalue, lua_pop, lua_pushvalue, lua_insert, lua_rawset, lua_rawget,
      lua_call, stkGet, stkTop, afterOk, retOf, traceOf, cacheVal, isOk,
      hk, huv, hm, hg, hgk, hmc, hgc, tblGet_tblSet_self]

/-- Witness for C9: deleting "k" from the example cache that bound it
to 5; the subsequent read invokes getter 0 and returns its result 5. -/
theorem setindex_nil_deletes_witness :
    (V.str "k" ≠ V.nil) ∧ (sExC.uduser 0 = V.table 13) ∧ (sExC.udmeta 0 = some 10) ∧
    (tblGet (sExC.tables 10) (V.str "getters") = V.table 11) ∧
    (tblGet (sExC.tables 11) (V.str "k") = V.function 0) ∧
    ((10 : Nat) ≠ 13) ∧ ((11 : Nat) ≠ 13) ∧
    (isOk (runSetindex sExC 0 (V.str "k") V.nil) = true ∧
     cacheVal (runSetindex sExC 0 (V.str "k") V.nil) 13 (V.str "k") = some V.nil ∧
     retOf (afterOk (runSetindex sExC 0 (V.str "k") V.nil)
         (fun s1 => runIndex fenvEx s1 0 (V.str "k"))) = some (V.num 5) ∧
     traceOf (afterOk (runSetindex sExC 0 (V.str "k") V.nil)
         (fun s1 => runIndex fenvEx s1 0 (V.str "k")))
       = some (sExC.trace ++ [Event.call 0 (V.userdata 0)])) :=
  ⟨by decide, by decide, by decide, by decide, by decide, by decide, by decide,
    setindex_nil_deletes fenvEx sExC 0 13 10 11 0 (V.str "k")
      (by decide) (by decide) (by decide) (by decide) (by decide) (by decide) (by decide)⟩

/-- C10 (confirmed): when the getter for the key returns nil, the read
returns nil and the caching table is left without an entry for the key
(the raw set of nil stores nothing), so a second read with no
intervening write invokes the getter again — the trace after two reads
holds two invocations.  As in C9, the caching table is required to be
distinct from the metatable and the getters table. -/
theorem nil_getter_uncached (fenv : Nat → V → V) (s : LS) (r c m gt g : Nat) (k : V)
    (hk : k ≠ V.nil)
    (huv : s.uduser r = V.table c)
    (hc : tblGet (s.tables c) k = V.nil)
    (hm : s.udmeta r = some m)
    (hg : tblGet (s.tables m) (V.str "getters") = V.table gt)
    (hgk : tblGet (s.tables gt) k = V.function g)
    (hnil : fenv g (V.userdata r) = V.nil)
    (hmc : m ≠ c) (hgc : gt ≠ c) :
    retOf (runIndex fenv s r k) = some V.nil ∧
    cacheVal (runIndex fenv s r k) c k = some V.nil ∧
    traceOf (runIndex fenv s r k) = some (s.trace ++ [Event.call g (V.userdata r)]) ∧
    traceOf (afterOk (runIndex fenv s r k) (fun s1 => runIndex fenv s1 r k))
      = some (s.trace ++ [Event.call g (V.userdata r), Event.call g (V.userdata r)]) := by
  refine ⟨?_, ?_, ?_, ?_⟩ <;>
    simp [runIndex, hslua_cachedindex, hsluaP_get_caching_table, luaL_getmetafield,
      metaRef, lua_settop, lua_getuservalue, lua_pop, lua_pushvalue, lua_rawget,
      lua_rawset, lua_call, stkGet, stkTop, afterOk, retOf, traceOf, cacheVal,
      hk, huv, hc, hm, hg, hgk, hnil, hmc, hgc, tblGet_tblSet_self]

/-- Witness for C10: getter 1 for "kn" returns nil; two reads of the
example proxy invoke it twice and never populate the cache. -/
theorem nil_getter_uncached_witness :
    (V.str "kn" ≠ V.nil) ∧ (sEx.uduser 0 = V.table 13) ∧
    (tblGet (sEx.tables 13) (V.str "kn") = V.nil) ∧ (sEx.udmeta 0 = some 10) ∧
    (tblGet (sEx.tables 10) (V.str "getters") = V.table 11) ∧
    (tblGet (sEx.tables 11) (V.str "kn") = V.function 1) ∧
    (fenvEx 1 (V.userdata 0) = V.nil) ∧ ((10 : Nat) ≠ 13) ∧ ((11 : Nat) ≠ 13) ∧
    (retOf (runIndex fenvEx sEx 0 (V.str "kn")) = some V.nil ∧
     cacheVal (runIndex fenvEx sEx 0 (V.str "kn")) 13 (V.str "kn") = some V.nil ∧
     traceOf (runIndex fenvEx sEx 0 (V.str "kn"))
       = some (sEx.trace ++ [Event.call 1 (V.userdata 0)]) ∧
     traceOf (afterOk (runIndex fenvEx sEx 0 (V.str "kn"))
         (fun s1 => runIndex fenvEx s1 0 (V.str "kn")))
       = some (sEx.trace ++ [Event.call 1 (V.userdata 0), Event.call 1 (V.userdata 0)])) :=
  ⟨by decide, by decide, by decide, by decide, by decide, by decide, by decide,
    by decide, by decide,
    nil_getter_uncached fenvEx sEx 0 13 10 11 1 (V.str "kn")
      (by decide) (by decide) (by decide) (by decide) (by decide) (by decide)
      (by decide) (by decide) (by decide)⟩
